import Mathlib

/-!
Verification development for the `mgr/rgw` ceph-mgr module
(`src/pybind/mgr/rgw/module.py`).

The module is a thin command front end over the RGWAM orchestration engine
(`ceph.rgw.rgwam_core`, outside this tree) and the orchestrator API.  We embed
the module's own control flow faithfully, and model the missing collaborators
(RGWAM methods, the RealmToken codec of `ceph.rgw.types`, YAML loading) as
explicit parameters or as definitions marked `Modelled from the spec:`.

Strings that flow through the token codec are embedded as lists of byte
values (`List Nat`, each < 256); everything else uses `String`.
-/

namespace RgwMgr

/-- Byte values (code points) of a string literal; all uses are ASCII, where
code points and UTF-8 bytes coincide. -/
def bytes (s : String) : List Nat := s.data.map Char.toNat

/-! ### Base64 envelope

Modelled from the spec: the token codec's "text-safe envelope" is base64
(`base64.b64encode` / `base64.b64decode` in the source's `list_realm_tokens`
and in `ceph.rgw.types.RealmToken`, the latter not under `src/`).
Bytes are encoded three at a time into four alphabet characters, with `=`
(61) padding for a final group of one or two bytes. -/

/-- The base64 alphabet: sextet value to ASCII code. -/
def b64char (n : Nat) : Nat :=
  if n < 26 then 65 + n
  else if n < 52 then 71 + n
  else if n < 62 then n - 4
  else if n = 62 then 43
  else 47

/-- Inverse of the base64 alphabet: ASCII code to sextet value. -/
def b64inv (c : Nat) : Option Nat :=
  if 65 ≤ c ∧ c ≤ 90 then some (c - 65)
  else if 97 ≤ c ∧ c ≤ 122 then some (c - 71)
  else if 48 ≤ c ∧ c ≤ 57 then some (c + 4)
  else if c = 43 then some 62
  else if c = 47 then some 63
  else none

theorem b64inv_b64char : ∀ n, n < 64 → b64inv (b64char n) = some n := by decide

theorem b64char_ne_pad : ∀ n, n < 64 → b64char n ≠ 61 := by decide

/-- base64-encode a byte list. -/
def b64encode : List Nat → List Nat
  | [] => []
  | [a] => [b64char (a / 4), b64char (a % 4 * 16), 61, 61]
  | [a, b] => [b64char (a / 4), b64char (a % 4 * 16 + b / 16), b64char (b % 16 * 4), 61]
  | a :: b :: c :: rest =>
      b64char (a / 4) :: b64char (a % 4 * 16 + b / 16) ::
        b64char (b % 16 * 4 + c / 64) :: b64char (c % 64) :: b64encode rest

/-- base64-decode a character list; `none` on any malformed input. -/
def b64decode : List Nat → Option (List Nat)
  | [] => some []
  | c1 :: c2 :: c3 :: c4 :: rest =>
    match b64inv c1, b64inv c2 with
    | some s1, some s2 =>
      if c3 = 61 then
        if c4 = 61 ∧ rest = [] then some [s1 * 4 + s2 / 16] else none
      else
        match b64inv c3 with
        | some s3 =>
          if c4 = 61 then
            if rest = [] then some [s1 * 4 + s2 / 16, s2 % 16 * 16 + s3 / 4] else none
          else
            match b64inv c4, b64decode rest with
            | some s4, some bs =>
                some ((s1 * 4 + s2 / 16) :: (s2 % 16 * 16 + s3 / 4) :: (s3 % 4 * 64 + s4) :: bs)
            | _, _ => none
        | none => none
    | _, _ => none
  | _ => none

theorem b64_roundtrip : ∀ bs : List Nat, (∀ b ∈ bs, b < 256) →
    b64decode (b64encode bs) = some bs
  | [], _ => rfl
  | [a], h => by
      have ha : a < 256 := h a (by simp)
      have h1 : a / 4 < 64 := by omega
      have h2 : a % 4 * 16 < 64 := by omega
      simp only [b64encode, b64decode, b64inv_b64char _ h1, b64inv_b64char _ h2]
      simp
      omega
  | [a, b], h => by
      have ha : a < 256 := h a (by simp)
      have hb : b < 256 := h b (by simp)
      have h1 : a / 4 < 64 := by omega
      have h2 : a % 4 * 16 + b / 16 < 64 := by omega
      have h3 : b % 16 * 4 < 64 := by omega
      simp only [b64encode, b64decode, b64inv_b64char _ h1, b64inv_b64char _ h2,
        b64inv_b64char _ h3]
      simp [b64char_ne_pad _ h3]
      omega
  | a :: b :: c :: rest, h => by
      have ha : a < 256 := h a (by simp)
      have hb : b < 256 := h b (by simp)
      have hc : c < 256 := h c (by simp)
      have h1 : a / 4 < 64 := by omega
      have h2 : a % 4 * 16 + b / 16 < 64 := by omega
      have h3 : b % 16 * 4 + c / 64 < 64 := by omega
      have h4 : c % 64 < 64 := by omega
      have ih : b64decode (b64encode rest) = some rest :=
        b64_roundtrip rest (fun x hx => h x (by simp [hx]))
      simp only [b64encode, b64decode, b64inv_b64char _ h1, b64inv_b64char _ h2,
        b64inv_b64char _ h3, b64inv_b64char _ h4]
      have e1 : a / 4 * 4 + (a % 4 * 16 + b / 16) / 16 = a := by omega
      have e2 : (a % 4 * 16 + b / 16) % 16 * 16 + (b % 16 * 4 + c / 64) / 4 = b := by omega
      have e3 : (b % 16 * 4 + c / 64) % 4 * 64 + c % 64 = c := by omega
      simp [b64char_ne_pad _ h3, b64char_ne_pad _ h4, ih, e1, e2, e3]

/-! ### Flat JSON objects

Modelled from the spec: the token payload is "structured data with exactly the
fields realm_name, realm_id, is_primary (boolean), endpoint, access_key,
secret" (spec section 6), i.e. a flat JSON object whose values are strings or
booleans, produced by `RealmToken.to_json` (in `ceph.rgw.types`, not under
`src/`).  We embed such objects, their serialization (with `"` and `\`
escaped) and a parser for them. -/

/-- A JSON value as it occurs in a realm token: a string or a boolean. -/
inductive JVal : Type
  | jstr (s : List Nat)
  | jbool (b : Bool)
deriving DecidableEq

/-- One key/value entry of a flat JSON object. -/
abbrev JEntry := List Nat × JVal

/-- A flat JSON object, as an ordered list of entries. -/
abbrev JObj := List JEntry

/-- Escape `"` (34) and `\` (92) with a backslash. -/
def escBytes : List Nat → List Nat
  | [] => []
  | c :: rest => if c = 34 ∨ c = 92 then 92 :: c :: escBytes rest else c :: escBytes rest

/-- Serialize a string: quote, escaped content, quote. -/
def serStr (s : List Nat) : List Nat := 34 :: (escBytes s ++ [34])

/-- Serialize a value; booleans become the ASCII bytes of true and false. -/
def serVal : JVal → List Nat
  | .jstr s => serStr s
  | .jbool true => [116, 114, 117, 101]
  | .jbool false => [102, 97, 108, 115, 101]

/-- Serialize one entry: key string, colon (58), value. -/
def serEntry (e : JEntry) : List Nat := serStr e.1 ++ 58 :: serVal e.2

/-- Serialize the entry list, comma (44) separated. -/
def serEntries : JObj → List Nat
  | [] => []
  | [e] => serEntry e
  | e :: rest => serEntry e ++ 44 :: serEntries rest

/-- Serialize an object: brace (123), entries, brace (125). -/
def serObj (o : JObj) : List Nat := 123 :: (serEntries o ++ [125])

/-- Parse the remainder of a string literal (after the opening quote),
returning the unescaped content and the unconsumed rest. -/
def parseStr : List Nat → Option (List Nat × List Nat)
  | [] => none
  | c :: rest =>
    if c = 34 then some ([], rest)
    else if c = 92 then
      match rest with
      | [] => none
      | c2 :: rest2 =>
        if c2 = 34 ∨ c2 = 92 then
          match parseStr rest2 with
          | some (s, r) => some (c2 :: s, r)
          | none => none
        else none
    else
      match parseStr rest with
      | some (s, r) => some (c :: s, r)
      | none => none

/-- Parse a value: a string literal, true, or false. -/
def parseVal : List Nat → Option (JVal × List Nat)
  | [] => none
  | c :: rest =>
    if c = 34 then
      match parseStr rest with
      | some (s, r) => some (.jstr s, r)
      | none => none
    else if c = 116 then
      match rest with
      | 114 :: 117 :: 101 :: r => some (.jbool true, r)
      | _ => none
    else if c = 102 then
      match rest with
      | 97 :: 108 :: 115 :: 101 :: r => some (.jbool false, r)
      | _ => none
    else none

/-- Parse one key-colon-value entry. -/
def parseEntry (l : List Nat) : Option (JEntry × List Nat) :=
  match l with
  | [] => none
  | c :: rest =>
    if c = 34 then
      match parseStr rest with
      | some (k, r1) =>
        match r1 with
        | [] => none
        | d :: r2 =>
          if d = 58 then
            match parseVal r2 with
            | some (v, r3) => some ((k, v), r3)
            | none => none
          else none
      | none => none
    else none

/-- Parse a nonempty comma-separated entry list up to the closing brace.
The fuel bounds the number of entries; callers pass at least the input
length, which always suffices. -/
def parseEntries : Nat → List Nat → Option (JObj × List Nat)
  | 0, _ => none
  | fuel + 1, l =>
    match parseEntry l with
    | some (e, r) =>
      match r with
      | [] => none
      | d :: r2 =>
        if d = 125 then some ([e], r2)
        else if d = 44 then
          match parseEntries fuel r2 with
          | some (es, r3) => some (e :: es, r3)
          | none => none
        else none
    | none => none

/-- Parse a flat JSON object. -/
def parseObj (fuel : Nat) (l : List Nat) : Option (JObj × List Nat) :=
  match l with
  | [] => none
  | c :: rest =>
    if c = 123 then
      match rest with
      | [] => none
      | d :: _ =>
        if d = 125 then some ([], rest.tail)
        else parseEntries fuel rest
    else none

/-- Parse a byte list as one whole flat JSON object, with no trailing bytes. -/
def jsonParseFull (payload : List Nat) : Option JObj :=
  match parseObj (payload.length + 1) payload with
  | some (o, r) => if r = [] then some o else none
  | none => none

theorem parseStr_roundtrip : ∀ (s rest : List Nat),
    parseStr (escBytes s ++ (34 :: rest)) = some (s, rest)
  | [], rest => by
      simp only [escBytes, List.nil_append]
      rw [parseStr.eq_def]
      simp
  | c :: s, rest => by
      have ih := parseStr_roundtrip s rest
      by_cases hc : c = 34 ∨ c = 92
      · rw [show escBytes (c :: s) = 92 :: c :: escBytes s from by simp [escBytes, hc]]
        rw [List.cons_append, List.cons_append, parseStr]
        simp [hc, ih]
      · push_neg at hc
        rw [show escBytes (c :: s) = c :: escBytes s from by simp [escBytes, hc.1, hc.2]]
        rw [List.cons_append, parseStr.eq_def]
        simp [hc.1, hc.2, ih]

theorem parseVal_roundtrip (v : JVal) (rest : List Nat) :
    parseVal (serVal v ++ rest) = some (v, rest) := by
  cases v with
  | jstr s =>
      simp only [serVal, serStr, List.cons_append, List.append_assoc, parseVal, if_pos rfl]
      simp [parseStr_roundtrip s rest]
  | jbool b => cases b <;> simp [serVal, parseVal]

theorem parseEntry_roundtrip (e : JEntry) (rest : List Nat) :
    parseEntry (serEntry e ++ rest) = some (e, rest) := by
  obtain ⟨k, v⟩ := e
  simp only [serEntry, serStr, List.cons_append, List.append_assoc, parseEntry, if_pos rfl]
  simp [parseStr_roundtrip k, parseVal_roundtrip v rest]

theorem serEntry_ne_nil (e : JEntry) : serEntry e ≠ [] := by
  simp [serEntry, serStr]

theorem length_le_serEntries : ∀ o : JObj, o.length ≤ (serEntries o).length
  | [] => by simp [serEntries]
  | [e] => by simp [serEntries, serEntry, serStr]
  | e :: e2 :: rest => by
      have ih := length_le_serEntries (e2 :: rest)
      simp only [List.length_cons] at ih
      simp only [serEntries, List.length_append, List.length_cons]
      have : 1 ≤ (serEntry e).length := by
        cases he : serEntry e with
        | nil => exact absurd he (serEntry_ne_nil e)
        | cons a l => simp
      omega

theorem serEntries_cons_head (e : JEntry) (es : JObj) :
    ∃ l, serEntries (e :: es) = 34 :: l := by
  cases es with
  | nil =>
      refine ⟨(escBytes e.1 ++ [34]) ++ 58 :: serVal e.2, ?_⟩
      simp [serEntries, serEntry, serStr]
  | cons x xs =>
      refine ⟨((escBytes e.1 ++ [34]) ++ 58 :: serVal e.2) ++ 44 :: serEntries (x :: xs), ?_⟩
      simp [serEntries, serEntry, serStr]

theorem parseEntries_roundtrip : ∀ (o : JObj) (e : JEntry) (rest : List Nat) (fuel : Nat),
    o.length < fuel →
    parseEntries fuel (serEntries (e :: o) ++ (125 :: rest)) = some (e :: o, rest)
  | [], e, rest, fuel, hf => by
      obtain ⟨fuel, rfl⟩ : ∃ f, fuel = f + 1 := ⟨fuel - 1, by omega⟩
      simp only [serEntries, parseEntries, parseEntry_roundtrip e, if_pos rfl]
      simp
  | e2 :: o, e, rest, fuel, hf => by
      obtain ⟨fuel, rfl⟩ : ∃ f, fuel = f + 1 := ⟨fuel - 1, by omega⟩
      have ih := parseEntries_roundtrip o e2 rest fuel (by simp at hf; omega)
      have harr : serEntries (e :: e2 :: o) ++ (125 :: rest)
          = serEntry e ++ (44 :: (serEntries (e2 :: o) ++ (125 :: rest))) := by
        simp [serEntries]
      rw [harr]
      simp only [parseEntries, parseEntry_roundtrip e]
      have h125 : ¬((44 : Nat) = 125) := by decide
      simp only [if_neg h125, if_pos rfl, ih]
      simp

theorem parseObj_serObj (o : JObj) (rest : List Nat) (fuel : Nat) (hf : o.length < fuel) :
    parseObj fuel (serObj o ++ rest) = some (o, rest) := by
  cases o with
  | nil => simp [serObj, serEntries, parseObj]
  | cons e es =>
      obtain ⟨l, hl⟩ := serEntries_cons_head e es
      have harr : serObj (e :: es) ++ rest
          = 123 :: (34 :: (l ++ (125 :: rest))) := by
        simp [serObj, hl]
      rw [harr]
      simp only [parseObj]
      have h34 : ¬((34 : Nat) = 125) := by decide
      simp only [if_pos rfl, List.tail_cons, if_neg h34]
      have : (34 : Nat) :: (l ++ (125 :: rest)) = serEntries (e :: es) ++ (125 :: rest) := by
        simp [hl]
      rw [this, parseEntries_roundtrip es e rest fuel (by simp at hf; omega)]
      simp

theorem jsonParseFull_serObj (o : JObj) : jsonParseFull (serObj o) = some o := by
  have hlen : o.length < (serObj o).length + 1 := by
    have h1 := length_le_serEntries o
    simp only [serObj, List.length_cons, List.length_append, List.length_singleton]
    omega
  have := parseObj_serObj o [] ((serObj o).length + 1) hlen
  simp only [List.append_nil] at this
  simp [jsonParseFull, this]

/-! ### The realm-token codec

Modelled from the spec: `RealmToken` and its `to_json` / base64 decoding live
in `ceph.rgw.types`, which is not under `src/`; the source's
`list_realm_tokens` builds a token from the six fields below, serializes it
with `to_json` and wraps it with `base64.b64encode`.  Per spec section 4.4 and
section 6, decode rejects a bad envelope, a payload that is not structured
data, a missing or wrongly typed required field, and any additional field. -/

/-- The portable join-token credential bundle (spec section 3). -/
structure RealmToken where
  realm_name : List Nat
  realm_id : List Nat
  is_primary : Bool
  endpoint : List Nat
  access_key : List Nat
  secret : List Nat
deriving DecidableEq

/-- ASCII bytes of the field name realm_name. -/
def kRealmName : List Nat := [114, 101, 97, 108, 109, 95, 110, 97, 109, 101]

/-- ASCII bytes of the field name realm_id. -/
def kRealmId : List Nat := [114, 101, 97, 108, 109, 95, 105, 100]

/-- ASCII bytes of the field name is_primary. -/
def kIsPrimary : List Nat := [105, 115, 95, 112, 114, 105, 109, 97, 114, 121]

/-- ASCII bytes of the field name endpoint. -/
def kEndpoint : List Nat := [101, 110, 100, 112, 111, 105, 110, 116]

/-- ASCII bytes of the field name access_key. -/
def kAccessKey : List Nat := [97, 99, 99, 101, 115, 115, 95, 107, 101, 121]

/-- ASCII bytes of the field name secret. -/
def kSecret : List Nat := [115, 101, 99, 114, 101, 116]

theorem kRealmName_spelling : kRealmName = bytes "realm_name" := by rfl

theorem kSecret_spelling : kSecret = bytes "secret" := by rfl

/-- The JSON object `to_json` produces: exactly the six required fields. -/
def tokenToJObj (t : RealmToken) : JObj :=
  [(kRealmName, .jstr t.realm_name), (kRealmId, .jstr t.realm_id),
   (kIsPrimary, .jbool t.is_primary), (kEndpoint, .jstr t.endpoint),
   (kAccessKey, .jstr t.access_key), (kSecret, .jstr t.secret)]

/-- Encode a token: JSON serialization wrapped in the base64 envelope
(source: `list_realm_tokens`, lines 207 and 208). -/
def encodeToken (t : RealmToken) : List Nat := b64encode (serObj (tokenToJObj t))

/-- Look a key up in a flat JSON object (first occurrence). -/
def lookupKey (k : List Nat) : JObj → Option JVal
  | [] => none
  | (k2, v) :: rest => if k2 = k then some v else lookupKey k rest

/-- Fetch a required string field. -/
def getStrField (o : JObj) (k : List Nat) : Option (List Nat) :=
  match lookupKey k o with
  | some (.jstr s) => some s
  | _ => none

/-- Fetch a required boolean field. -/
def getBoolField (o : JObj) (k : List Nat) : Option Bool :=
  match lookupKey k o with
  | some (.jbool b) => some b
  | _ => none

/-- Build a token from a decoded object: all six fields required with the
right types, and no additional fields (exactly six entries). -/
def tokenFromJObj (o : JObj) : Option RealmToken :=
  if o.length = 6 then
    match getStrField o kRealmName, getStrField o kRealmId, getBoolField o kIsPrimary,
        getStrField o kEndpoint, getStrField o kAccessKey, getStrField o kSecret with
    | some rn, some rid, some ip, some ep, some ak, some sk =>
        some ⟨rn, rid, ip, ep, ak, sk⟩
    | _, _, _, _, _, _ => none
  else none

/-- Decode a token string: unwrap the base64 envelope, parse the payload as
one whole JSON object, extract the six fields.  `none` is the model of
`TokenDecodeError`. -/
def decodeToken (s : List Nat) : Option RealmToken :=
  match b64decode s with
  | none => none
  | some payload =>
    match jsonParseFull payload with
    | none => none
    | some o => tokenFromJObj o

/-- A well-formed token: every byte of every string field is a byte. -/
def WfToken (t : RealmToken) : Prop :=
  (∀ b ∈ t.realm_name, b < 256) ∧ (∀ b ∈ t.realm_id, b < 256) ∧
  (∀ b ∈ t.endpoint, b < 256) ∧ (∀ b ∈ t.access_key, b < 256) ∧
  (∀ b ∈ t.secret, b < 256)

instance (t : RealmToken) : Decidable (WfToken t) := by
  unfold WfToken
  infer_instance

theorem lt256_escBytes {s : List Nat} (hs : ∀ b ∈ s, b < 256) :
    ∀ b ∈ escBytes s, b < 256 := by
  induction s with
  | nil => simp [escBytes]
  | cons c rest ih =>
      have hc : c < 256 := hs c (by simp)
      have hrest : ∀ b ∈ rest, b < 256 := fun b hb => hs b (by simp [hb])
      intro b hb
      by_cases h : c = 34 ∨ c = 92 <;> simp only [escBytes, h, if_pos, if_neg] at hb <;>
        simp at hb
      · rcases hb with h1 | h1 | h1
        · omega
        · omega
        · exact ih hrest b h1
      · rcases hb with h1 | h1
        · omega
        · exact ih hrest b h1

theorem lt256_serStr {s : List Nat} (hs : ∀ b ∈ s, b < 256) :
    ∀ b ∈ serStr s, b < 256 := by
  intro b hb
  simp only [serStr, List.mem_cons, List.mem_append, List.mem_singleton] at hb
  rcases hb with h | h | h
  · omega
  · exact lt256_escBytes hs b h
  · simp at h; omega

/-- Well-formedness of a JSON value: string contents are bytes. -/
def WfVal : JVal → Prop
  | .jstr s => ∀ b ∈ s, b < 256
  | .jbool _ => True

theorem lt256_serVal {v : JVal} (hv : WfVal v) : ∀ b ∈ serVal v, b < 256 := by
  cases v with
  | jstr s => exact lt256_serStr hv
  | jbool b => cases b <;> simp [serVal]

theorem lt256_serEntry {e : JEntry} (hk : ∀ b ∈ e.1, b < 256) (hv : WfVal e.2) :
    ∀ b ∈ serEntry e, b < 256 := by
  intro b hb
  simp only [serEntry, List.mem_append, List.mem_cons] at hb
  rcases hb with h | h | h
  · exact lt256_serStr hk b h
  · omega
  · exact lt256_serVal hv b h

theorem lt256_serEntries : ∀ {o : JObj},
    (∀ e ∈ o, (∀ b ∈ e.1, b < 256) ∧ WfVal e.2) → ∀ b ∈ serEntries o, b < 256
  | [], _ => by simp [serEntries]
  | [e], h => by
      simpa [serEntries] using lt256_serEntry (h e (by simp)).1 (h e (by simp)).2
  | e :: e2 :: rest, h => by
      intro b hb
      simp only [serEntries, List.mem_append, List.mem_cons] at hb
      rcases hb with h1 | h1 | h1
      · exact lt256_serEntry (h e (by simp)).1 (h e (by simp)).2 b h1
      · omega
      · exact lt256_serEntries (o := e2 :: rest)
          (fun x hx => h x (by simp at hx ⊢; tauto)) b h1

theorem lt256_serObj {o : JObj} (h : ∀ e ∈ o, (∀ b ∈ e.1, b < 256) ∧ WfVal e.2) :
    ∀ b ∈ serObj o, b < 256 := by
  intro b hb
  simp only [serObj, List.mem_cons, List.mem_append, List.mem_singleton] at hb
  rcases hb with h1 | h1 | h1
  · omega
  · exact lt256_serEntries h b h1
  · simp at h1; omega

theorem lt256_serObj_token {t : RealmToken} (h : WfToken t) :
    ∀ b ∈ serObj (tokenToJObj t), b < 256 := by
  refine lt256_serObj ?_
  obtain ⟨h1, h2, h3, h4, h5⟩ := h
  intro e he
  simp only [tokenToJObj, List.mem_cons, List.not_mem_nil, or_false] at he
  rcases he with rfl | rfl | rfl | rfl | rfl | rfl
  · exact ⟨by show ∀ b ∈ kRealmName, b < 256; decide, h1⟩
  · exact ⟨by show ∀ b ∈ kRealmId, b < 256; decide, h2⟩
  · exact ⟨by show ∀ b ∈ kIsPrimary, b < 256; decide, trivial⟩
  · exact ⟨by show ∀ b ∈ kEndpoint, b < 256; decide, h3⟩
  · exact ⟨by show ∀ b ∈ kAccessKey, b < 256; decide, h4⟩
  · exact ⟨by show ∀ b ∈ kSecret, b < 256; decide, h5⟩

theorem tokenFromJObj_tokenToJObj (t : RealmToken) :
    tokenFromJObj (tokenToJObj t) = some t := rfl

/-- Claim C2 theorem: decoding the encoding of any well-formed realm token
yields the token back unchanged. -/
theorem token_encode_decode_roundtrip (t : RealmToken) (h : WfToken t) :
    decodeToken (encodeToken t) = some t := by
  simp only [decodeToken, encodeToken,
    b64_roundtrip _ (lt256_serObj_token h), jsonParseFull_serObj,
    tokenFromJObj_tokenToJObj]

/-- Witness for C2: the round trip at a concrete token. -/
theorem token_encode_decode_roundtrip_witness :
    decodeToken (encodeToken ⟨bytes "r1", bytes "id1", true, bytes "http",
      bytes "ak", bytes "sk"⟩) = some ⟨bytes "r1", bytes "id1", true, bytes "http",
      bytes "ak", bytes "sk"⟩ :=
  token_encode_decode_roundtrip _ (by decide)

theorem tokenFromJObj_eq_none_iff (o : JObj) :
    tokenFromJObj o = none ↔
      (o.length ≠ 6 ∨ getStrField o kRealmName = none ∨ getStrField o kRealmId = none ∨
       getBoolField o kIsPrimary = none ∨ getStrField o kEndpoint = none ∨
       getStrField o kAccessKey = none ∨ getStrField o kSecret = none) := by
  unfold tokenFromJObj
  by_cases h6 : o.length = 6
  · simp only [if_pos h6]
    cases h1 : getStrField o kRealmName <;> cases h2 : getStrField o kRealmId <;>
      cases h3 : getBoolField o kIsPrimary <;> cases h4 : getStrField o kEndpoint <;>
      cases h5 : getStrField o kAccessKey <;> cases h7 : getStrField o kSecret <;>
      simp [h6]
  · simp [h6]

/-- Claim C8 theorem: token decoding fails (the model of `TokenDecodeError`)
exactly when the input is not a valid base64 envelope, or the payload is not
one whole well-formed JSON object, or one of the six required fields is
absent or has the wrong type, or the object carries additional fields
(its entry count is not six). -/
theorem token_decode_fails_iff (s : List Nat) :
    decodeToken s = none ↔
      b64decode s = none ∨
      ∃ payload, b64decode s = some payload ∧
        (jsonParseFull payload = none ∨
         ∃ o, jsonParseFull payload = some o ∧
           (o.length ≠ 6 ∨ getStrField o kRealmName = none ∨ getStrField o kRealmId = none ∨
            getBoolField o kIsPrimary = none ∨ getStrField o kEndpoint = none ∨
            getStrField o kAccessKey = none ∨ getStrField o kSecret = none)) := by
  unfold decodeToken
  cases hb : b64decode s with
  | none => simp
  | some payload =>
      cases hj : jsonParseFull payload with
      | none => simp [hj]
      | some o => simp [hj, tokenFromJObj_eq_none_iff]

/-! ### Realm-token listing (`list_realm_tokens`, source lines 194 to 211)

The engine's `get_realms_info` (in `ceph.rgw.rgwam_core`, not under `src/`)
yields one record per realm; per the spec it carries the realm identity, the
master zone id, the master zone endpoint and its access/secret keys, any of
which may be empty.  Python truthiness on these strings is emptiness. -/

/-- One record of `get_realms_info`. -/
structure RealmInfo where
  realm_name : List Nat
  realm_id : List Nat
  is_primary : Bool
  endpoint : List Nat
  access_key : List Nat
  secret : List Nat
  master_zone_id : List Nat
deriving DecidableEq

/-- The token the listing builds from a fully populated record. -/
def tokenOfInfo (i : RealmInfo) : RealmToken :=
  ⟨i.realm_name, i.realm_id, i.is_primary, i.endpoint, i.access_key, i.secret⟩

/-- Marker used when the realm has no master zone. -/
def msgNoMasterZone : List Nat := bytes "realm has no master zone"

/-- Marker used when the master zone has no endpoint. -/
def msgNoEndpoint : List Nat := bytes "master zone has no endpoint"

/-- Marker used when the master zone has no access/secret keys. -/
def msgNoKeys : List Nat := bytes "master zone has no access/secret keys"

/-- The realm/token pair appended for one realm record, mirroring the
if/elif/elif/else chain of `list_realm_tokens`. -/
def realmEntry (i : RealmInfo) : List Nat × List Nat :=
  if i.master_zone_id = [] then (i.realm_name, msgNoMasterZone)
  else if i.endpoint = [] then (i.realm_name, msgNoEndpoint)
  else if i.access_key = [] ∨ i.secret = [] then (i.realm_name, msgNoKeys)
  else (i.realm_name, encodeToken (tokenOfInfo i))

/-- The whole listing: one entry per enumerated realm, in order. -/
def listRealmTokens (infos : List RealmInfo) : List (List Nat × List Nat) :=
  infos.map realmEntry

/-- Claim C5 theorem: the listing returns one entry for every realm, in
order; a realm with a missing piece is still present, marked with the
message naming the missing piece, and only a fully populated realm yields an
encoded token. -/
theorem list_realm_tokens_total_per_realm (infos : List RealmInfo) :
    (listRealmTokens infos).length = infos.length ∧
    (∀ i : Nat, (listRealmTokens infos).get? i = (infos.get? i).map realmEntry) ∧
    (∀ info : RealmInfo,
      (info.master_zone_id = [] →
        realmEntry info = (info.realm_name, msgNoMasterZone)) ∧
      (info.master_zone_id ≠ [] → info.endpoint = [] →
        realmEntry info = (info.realm_name, msgNoEndpoint)) ∧
      (info.master_zone_id ≠ [] → info.endpoint ≠ [] →
        (info.access_key = [] ∨ info.secret = []) →
        realmEntry info = (info.realm_name, msgNoKeys)) ∧
      (info.master_zone_id ≠ [] → info.endpoint ≠ [] →
        info.access_key ≠ [] → info.secret ≠ [] →
        realmEntry info = (info.realm_name, encodeToken (tokenOfInfo info)))) := by
  refine ⟨by simp [listRealmTokens], fun i => by simp [listRealmTokens], fun info => ?_⟩
  refine ⟨fun h1 => by simp [realmEntry, h1], fun h1 h2 => by simp [realmEntry, h1, h2],
    fun h1 h2 h3 => by simp [realmEntry, h1, h2, h3], fun h1 h2 h3 h4 => ?_⟩
  have : ¬(info.access_key = [] ∨ info.secret = []) := by tauto
  simp [realmEntry, h1, h2, this]

/-- Witness for C5: a realm whose master zone has no endpoint is still
listed, marked with the missing piece. -/
theorem list_realm_tokens_total_per_realm_witness :
    realmEntry ⟨bytes "r1", bytes "id1", true, [], bytes "ak", bytes "sk",
        bytes "mz"⟩
      = (bytes "r1", msgNoEndpoint) :=
  ((list_realm_tokens_total_per_realm []).2.2
      ⟨bytes "r1", bytes "id1", true, [], bytes "ak", bytes "sk", bytes "mz"⟩).2.1
    (by decide) rfl

/-! ### The command front end (`Module`, source lines 53 to 302)

Commands return a `(retval, stdout, stderr)` triple (`HandleCommandResult`
and the bare tuples returned from `except` blocks carry the same three
components).  The RGWAM engine methods are modelled as oracle parameters:
a method either returns normally or raises `RGWAMException`, which the
commands catch.  Alongside the result we thread a trace of the specs on
which an engine method was invoked; an empty trace means no admin-tool
invocation and no side effect. -/

/-- A command result triple. -/
abbrev CmdResult := Int × String × String

/-- The data of a raised `RGWAMException`. -/
structure RGWAMErr where
  retcode : Int
  message : String
  stderr : String
deriving DecidableEq

/-- The service spec handed to the engine (`ceph.deployment.service_spec.RGWSpec`;
only the fields this module sets). -/
structure RGWSpec where
  rgw_realm : Option String := none
  rgw_zonegroup : Option String := none
  rgw_zone : Option String := none
  rgw_realm_token : Option String := none
  rgw_frontend_port : Option Int := none
  placement : Option String := none
deriving DecidableEq

/-- Python truthiness of an optional string: `None` and the empty string are
falsy. -/
def strTruthy : Option String → Bool
  | none => false
  | some s => !s.isEmpty

/-- errno.EINVAL. -/
def EINVAL : Int := 22

/-- Error text of the `check_orchestrator` gate (source line 104). -/
def cephadmUnavailableMsg : String :=
  "Cephadm is not available. Please enable cephadm by \x27ceph mgr module enable cephadm\x27."

/-- Error text of the invalid-arguments branches (source lines 142 and 246). -/
def invalidArgsMsg : String := "Invalid arguments: -h or --help for usage"

/-- Success text of `rgw realm bootstrap` (source line 151). -/
def bootstrapSuccessMsg : String :=
  "Realm(s) created correctly. Please, use \x27ceph rgw realm tokens\x27 to get the token."

/-- The `for spec in rgw_specs: RGWAM(env).realm_bootstrap(spec, start_radosgw)`
loop (source lines 144 and 145): first exception aborts.  Returns the outcome
and the list of specs actually attempted. -/
def bootstrapLoop (boot : RGWSpec → Bool → Except RGWAMErr Unit) (start : Bool) :
    List RGWSpec → Except RGWAMErr Unit × List RGWSpec
  | [] => (.ok (), [])
  | s :: rest =>
    match boot s start with
    | .error e => (.error e, [s])
    | .ok _ =>
      let r := bootstrapLoop boot start rest
      (r.1, s :: r.2)

/-- Try-block plus exception handler around the bootstrap loop
(source lines 144 to 151). -/
def runBootstrap (boot : RGWSpec → Bool → Except RGWAMErr Unit) (start : Bool)
    (specs : List RGWSpec) : CmdResult × List RGWSpec :=
  match bootstrapLoop boot start specs with
  | (.error e, tr) => ((e.retcode, e.message, e.stderr), tr)
  | (.ok _, tr) => ((0, bootstrapSuccessMsg, ""), tr)

/-- The body of `_cmd_rgw_realm_bootstrap` (source lines 122 to 151).
`parse` models `self._parse_rgw_specs` on the input buffer; `boot` models
`RGWAM(self.env).realm_bootstrap`. -/
def cmdRealmBootstrap (parse : String → List RGWSpec)
    (boot : RGWSpec → Bool → Except RGWAMErr Unit)
    (realm_name zonegroup_name zone_name : Option String)
    (port : Option Int) (placement : Option String)
    (start_radosgw : Bool) (inbuf : Option String) : CmdResult × List RGWSpec :=
  if strTruthy inbuf then
    runBootstrap boot start_radosgw (parse (inbuf.getD ""))
  else if strTruthy realm_name && strTruthy zonegroup_name && strTruthy zone_name then
    runBootstrap boot start_radosgw
      [{ rgw_realm := realm_name, rgw_zonegroup := zonegroup_name, rgw_zone := zone_name,
         rgw_frontend_port := port, placement := placement }]
  else ((-EINVAL, "", invalidArgsMsg), [])

/-- The `check_orchestrator` decorator (source lines 96 to 107) applied to
`_cmd_rgw_realm_bootstrap`: when the orchestrator reports unavailable, the
wrapped body never runs. -/
def cmdRealmBootstrapGated (available : Bool) (parse : String → List RGWSpec)
    (boot : RGWSpec → Bool → Except RGWAMErr Unit)
    (realm_name zonegroup_name zone_name : Option String)
    (port : Option Int) (placement : Option String)
    (start_radosgw : Bool) (inbuf : Option String) : CmdResult × List RGWSpec :=
  if available then
    cmdRealmBootstrap parse boot realm_name zonegroup_name zone_name port placement
      start_radosgw inbuf
  else ((-EINVAL, "", cephadmUnavailableMsg), [])

/-- A Python exception the command does not catch. -/
inductive PyExc : Type
  | unboundLocal
deriving DecidableEq

/-- The `for rgw_spec in rgw_specs:` loop of `_cmd_rgw_zone_create`
(source lines 248 to 251): each iteration binds `(retval, out, err)`; a
non-zero retval breaks; an exception aborts.  The accumulator carries the
last bound triple, `none` when the loop body never ran. -/
def zoneCreateLoop (zc : RGWSpec → Bool → Except RGWAMErr CmdResult) (start : Bool) :
    List RGWSpec → Option CmdResult → Except RGWAMErr (Option CmdResult) × List RGWSpec
  | [], acc => (.ok acc, [])
  | s :: rest, _ =>
    match zc s start with
    | .error e => (.error e, [s])
    | .ok t =>
      if t.1 ≠ 0 then (.ok (some t), [s])
      else
        let r := zoneCreateLoop zc start rest (some t)
        (r.1, s :: r.2)

/-- Try-block, exception handler and final `return HandleCommandResult(retval,
out, err)` of `_cmd_rgw_zone_create` (source lines 236 to 257).  When the loop
never bound the result variables, the final return raises `UnboundLocalError`,
modelled as `.error .unboundLocal`. -/
def runZoneCreate (zc : RGWSpec → Bool → Except RGWAMErr CmdResult) (start : Bool)
    (specs : List RGWSpec) : Except PyExc CmdResult × List RGWSpec :=
  match zoneCreateLoop zc start specs none with
  | (.error e, tr) => (.ok (e.retcode, e.message, e.stderr), tr)
  | (.ok none, tr) => (.error .unboundLocal, tr)
  | (.ok (some t), tr) => (.ok t, tr)

/-- The body of `_cmd_rgw_zone_create` (source lines 228 to 257). -/
def cmdZoneCreate (parse : String → List RGWSpec)
    (zc : RGWSpec → Bool → Except RGWAMErr CmdResult)
    (zone_name realm_token : Option String)
    (port : Option Int) (placement : Option String)
    (start_radosgw : Bool) (inbuf : Option String) :
    Except PyExc CmdResult × List RGWSpec :=
  if strTruthy inbuf then
    runZoneCreate zc start_radosgw (parse (inbuf.getD ""))
  else if strTruthy zone_name && strTruthy realm_token then
    runZoneCreate zc start_radosgw
      [{ rgw_realm_token := realm_token, rgw_zone := zone_name,
         rgw_frontend_port := port, placement := placement }]
  else (.ok (-EINVAL, "", invalidArgsMsg), [])

/-- The `check_orchestrator` decorator applied to `_cmd_rgw_zone_create`. -/
def cmdZoneCreateGated (available : Bool) (parse : String → List RGWSpec)
    (zc : RGWSpec → Bool → Except RGWAMErr CmdResult)
    (zone_name realm_token : Option String)
    (port : Option Int) (placement : Option String)
    (start_radosgw : Bool) (inbuf : Option String) :
    Except PyExc CmdResult × List RGWSpec :=
  if available then
    cmdZoneCreate parse zc zone_name realm_token port placement start_radosgw inbuf
  else (.ok (-EINVAL, "", cephadmUnavailableMsg), [])

/-- The body of `update_zone_info` (source lines 214 to 224): on a normal
engine return it keeps the engine's retval but replaces stdout with a fixed
success message and stderr with the empty string; on `RGWAMException` it
returns the exception triple. -/
def updateZoneInfo (zoneModify : Except RGWAMErr CmdResult) : CmdResult :=
  match zoneModify with
  | .ok t => (t.1, "Zone updated successfully", "")
  | .error e => (e.retcode, e.message, e.stderr)

/-- One of the exception types caught by `OrchestratorAPI.status`
(source line 28). -/
inductive OrchExc : Type
  | runtimeError (m : String)
  | orchestratorError (m : String)
  | importError (m : String)
deriving DecidableEq

/-- Message text of a caught exception. -/
def OrchExc.msg : OrchExc → String
  | .runtimeError m => m
  | .orchestratorError m => m
  | .importError m => m

/-- The dictionary `OrchestratorAPI.status` returns. -/
structure StatusDict where
  available : Bool
  message : String
deriving DecidableEq

/-- `OrchestratorAPI.status` (source lines 24 to 29): the underlying
`available()` call either returns a (status, message) pair or raises one of
RuntimeError, OrchestratorError, ImportError; the raise is caught and turned
into an available-false dictionary. -/
def orchStatus (underlying : Except OrchExc (Bool × String)) : StatusDict :=
  match underlying with
  | .ok p => ⟨p.1, p.2⟩
  | .error e => ⟨false, "Orchestrator is unavailable: " ++ e.msg⟩

/-- Claim C1 theorem: when the orchestrator reports unavailable, both gated
operations (realm bootstrap and zone create, here with start_daemons true)
return the typed unavailability failure with a non-zero return code and an
empty invocation trace, so no admin-tool process is spawned and no side
effect occurs. -/
theorem availability_gate_blocks (parse : String → List RGWSpec)
    (boot : RGWSpec → Bool → Except RGWAMErr Unit)
    (zc : RGWSpec → Bool → Except RGWAMErr CmdResult)
    (r zg z zn tok : Option String) (port : Option Int) (pl : Option String)
    (inbuf : Option String) :
    cmdRealmBootstrapGated false parse boot r zg z port pl true inbuf
        = ((-EINVAL, "", cephadmUnavailableMsg), []) ∧
    cmdZoneCreateGated false parse zc zn tok port pl true inbuf
        = (.ok (-EINVAL, "", cephadmUnavailableMsg), []) ∧
    (-EINVAL : Int) ≠ 0 :=
  ⟨rfl, rfl, by decide⟩

/-- Claim C9 theorem: `status` is a total function (it cannot propagate the
three caught exception types); on any caught exception it returns
available-false with a descriptive message, and a gated command run under
that status fails with the unavailability error instead of crashing. -/
theorem orch_status_never_raises :
    (∀ e : OrchExc, orchStatus (.error e)
        = ⟨false, "Orchestrator is unavailable: " ++ e.msg⟩) ∧
    (∀ (e : OrchExc) (parse : String → List RGWSpec)
        (boot : RGWSpec → Bool → Except RGWAMErr Unit)
        (r zg z : Option String) (port : Option Int) (pl : Option String)
        (start : Bool) (inbuf : Option String),
      cmdRealmBootstrapGated (orchStatus (.error e)).available parse boot r zg z port pl
          start inbuf
        = ((-EINVAL, "", cephadmUnavailableMsg), [])) :=
  ⟨fun _ => rfl, fun _ _ _ _ _ _ _ _ _ _ => rfl⟩

/-- Claim C7 theorem: with no input buffer, the new-topology form of realm
bootstrap fails with EINVAL and an empty invocation trace unless all three of
realm, zonegroup and zone names are (truthily) present, and proceeds to the
engine loop exactly when all three are present. -/
theorem new_topology_requires_all_names (parse : String → List RGWSpec)
    (boot : RGWSpec → Bool → Except RGWAMErr Unit)
    (r zg z : Option String) (port : Option Int) (pl : Option String) (start : Bool) :
    (¬(strTruthy r = true ∧ strTruthy zg = true ∧ strTruthy z = true) →
      cmdRealmBootstrap parse boot r zg z port pl start none
        = ((-EINVAL, "", invalidArgsMsg), [])) ∧
    ((strTruthy r = true ∧ strTruthy zg = true ∧ strTruthy z = true) →
      cmdRealmBootstrap parse boot r zg z port pl start none
        = runBootstrap boot start
            [{ rgw_realm := r, rgw_zonegroup := zg, rgw_zone := z,
               rgw_frontend_port := port, placement := pl }]) ∧
    (-EINVAL : Int) ≠ 0 := by
  refine ⟨fun h => ?_, fun h => ?_, by decide⟩
  · have hf : (strTruthy r && strTruthy zg && strTruthy z) = false := by
      cases hr : strTruthy r <;> cases hzg : strTruthy zg <;> cases hz : strTruthy z <;>
        simp_all
    unfold cmdRealmBootstrap
    rw [show strTruthy none = false from rfl, hf]
    simp
  · have ht : (strTruthy r && strTruthy zg && strTruthy z) = true := by
      simp [h.1, h.2.1, h.2.2]
    unfold cmdRealmBootstrap
    rw [show strTruthy none = false from rfl, ht]
    simp

/-- Witness for C7: only a zone name supplied (a proper non-empty subset of
the three names) fails with EINVAL and attempts nothing. -/
theorem new_topology_requires_all_names_witness :
    cmdRealmBootstrap (fun _ => []) (fun _ _ => .ok ()) none none (some "z1")
        none none true none = ((-EINVAL, "", invalidArgsMsg), []) :=
  (new_topology_requires_all_names (fun _ => []) (fun _ _ => .ok ()) none none
      (some "z1") none none true).1 (by simp [strTruthy])

/-- Claim C10 theorem: when the input buffer is truthy but resolves to zero
specs, the zone create loop never binds (retval, out, err) and the final
return statement raises an uncaught UnboundLocalError instead of producing a
structured result. -/
theorem zone_create_empty_specs_unbound (parse : String → List RGWSpec)
    (zc : RGWSpec → Bool → Except RGWAMErr CmdResult)
    (zn tok : Option String) (port : Option Int) (pl : Option String)
    (start : Bool) (s : String) (hs : s.isEmpty = false) (hparse : parse s = []) :
    cmdZoneCreate parse zc zn tok port pl start (some s)
      = (.error .unboundLocal, []) := by
  simp [cmdZoneCreate, strTruthy, hs, hparse, runZoneCreate, zoneCreateLoop]

/-- Witness for C10: a buffer of only empty YAML documents crashes the zone
create command. -/
theorem zone_create_empty_specs_unbound_witness :
    cmdZoneCreate (fun _ => []) (fun _ _ => .ok (0, "", "")) none none none none true
        (some "---") = (.error .unboundLocal, []) :=
  zone_create_empty_specs_unbound (fun _ => []) (fun _ _ => .ok (0, "", "")) none none
    none none true "---" rfl rfl

/-- Counterexample for C4: `update_zone_info` pairs its fixed success-shaped
stdout with the engine's return code, so a non-raising engine return of 5
produces a success message together with a non-zero return code, refuting the
claim that no operation does so. -/
theorem result_contract_counterexample :
    updateZoneInfo (.ok (5, "engine out", "engine err"))
        = (5, "Zone updated successfully", "") ∧ (5 : Int) ≠ 0 :=
  ⟨rfl, by decide⟩

/-- Case split for the realm bootstrap result triple. -/
theorem runBootstrap_result_cases (boot : RGWSpec → Bool → Except RGWAMErr Unit)
    (start : Bool) (specs : List RGWSpec) :
    (runBootstrap boot start specs).1 = ((0 : Int), bootstrapSuccessMsg, "") ∨
    ∃ e : RGWAMErr, (runBootstrap boot start specs).1
        = (e.retcode, e.message, e.stderr) := by
  unfold runBootstrap
  rcases h : bootstrapLoop boot start specs with ⟨r, tr⟩
  cases r with
  | error e => exact Or.inr ⟨e, by simp⟩
  | ok u => exact Or.inl (by simp)

/-- Claim C4 amended theorem: on an engine exception every modelled operation
returns the typed failure triple unchanged; realm bootstrap returns either
the success triple with return code 0, the invalid-arguments failure, or an
exception triple; but `update_zone_info` passes the engine's return code
through while replacing stdout with a fixed success message and stderr with
the empty string, so its success-shaped message is not tied to return code
0. -/
theorem result_contract_amended :
    (∀ e : RGWAMErr, updateZoneInfo (.error e) = (e.retcode, e.message, e.stderr)) ∧
    (∀ t : CmdResult, updateZoneInfo (.ok t) = (t.1, "Zone updated successfully", "")) ∧
    (∀ (parse : String → List RGWSpec) (boot : RGWSpec → Bool → Except RGWAMErr Unit)
        (r zg z : Option String) (port : Option Int) (pl : Option String)
        (start : Bool) (inbuf : Option String),
      (cmdRealmBootstrap parse boot r zg z port pl start inbuf).1
          = ((0 : Int), bootstrapSuccessMsg, "") ∨
      (cmdRealmBootstrap parse boot r zg z port pl start inbuf).1
          = ((-EINVAL : Int), "", invalidArgsMsg) ∨
      ∃ e : RGWAMErr, (cmdRealmBootstrap parse boot r zg z port pl start inbuf).1
          = (e.retcode, e.message, e.stderr)) := by
  refine ⟨fun e => rfl, fun t => rfl, fun parse boot r zg z port pl start inbuf => ?_⟩
  unfold cmdRealmBootstrap
  by_cases h1 : strTruthy inbuf = true
  · simp only [h1, if_pos]
    rcases runBootstrap_result_cases boot start (parse (inbuf.getD "")) with h | ⟨e, h⟩
    · exact Or.inl h
    · exact Or.inr (Or.inr ⟨e, h⟩)
  · simp only [Bool.not_eq_true] at h1
    simp only [h1, Bool.false_eq_true, if_false]
    by_cases h2 : (strTruthy r && strTruthy zg && strTruthy z) = true
    · simp only [h2, if_pos]
      rcases runBootstrap_result_cases boot start _ with h | ⟨e, h⟩
      · exact Or.inl h
      · exact Or.inr (Or.inr ⟨e, h⟩)
    · simp only [Bool.not_eq_true] at h2
      simp [h2]

theorem bootstrapLoop_fail_fast (boot : RGWSpec → Bool → Except RGWAMErr Unit)
    (start : Bool) :
    ∀ (specs : List RGWSpec) (k : Nat) (hk : k < specs.length) (e : RGWAMErr),
      (∀ i (hi : i < k), boot (specs.get ⟨i, Nat.lt_trans hi hk⟩) start = .ok ()) →
      boot (specs.get ⟨k, hk⟩) start = .error e →
      bootstrapLoop boot start specs = (.error e, specs.take (k + 1))
  | [], k, hk, _, _, _ => absurd hk (by simp)
  | s :: rest, 0, hk, e, hok, herr => by
      have h0 : boot s start = .error e := herr
      simp [bootstrapLoop, h0]
  | s :: rest, k + 1, hk, e, hok, herr => by
      have h0 : boot s start = .ok () := hok 0 (Nat.succ_pos k)
      have hk2 : k < rest.length := by
        simp only [List.length_cons] at hk
        omega
      have ih := bootstrapLoop_fail_fast boot start rest k hk2 e
        (fun i hi => hok (i + 1) (Nat.succ_lt_succ hi)) herr
      simp [bootstrapLoop, h0, ih]

theorem zoneCreateLoop_fail_fast (zc : RGWSpec → Bool → Except RGWAMErr CmdResult)
    (start : Bool) :
    ∀ (specs : List RGWSpec) (k : Nat) (hk : k < specs.length) (acc : Option CmdResult)
      (e : RGWAMErr),
      (∀ i (hi : i < k), ∃ u : CmdResult,
          zc (specs.get ⟨i, Nat.lt_trans hi hk⟩) start = .ok u ∧ u.1 = 0) →
      zc (specs.get ⟨k, hk⟩) start = .error e →
      zoneCreateLoop zc start specs acc = (.error e, specs.take (k + 1))
  | [], k, hk, _, _, _, _ => absurd hk (by simp)
  | s :: rest, 0, hk, acc, e, hok, herr => by
      have h0 : zc s start = .error e := herr
      simp [zoneCreateLoop, h0]
  | s :: rest, k + 1, hk, acc, e, hok, herr => by
      obtain ⟨u, hu, hu0⟩ := hok 0 (Nat.succ_pos k)
      have h0 : zc s start = .ok u := hu
      have hk2 : k < rest.length := by
        simp only [List.length_cons] at hk
        omega
      have ih := zoneCreateLoop_fail_fast zc start rest k hk2 (some u) e
        (fun i hi => hok (i + 1) (Nat.succ_lt_succ hi)) herr
      simp [zoneCreateLoop, h0, hu0, ih]

theorem zoneCreateLoop_break (zc : RGWSpec → Bool → Except RGWAMErr CmdResult)
    (start : Bool) :
    ∀ (specs : List RGWSpec) (k : Nat) (hk : k < specs.length) (acc : Option CmdResult)
      (t : CmdResult),
      (∀ i (hi : i < k), ∃ u : CmdResult,
          zc (specs.get ⟨i, Nat.lt_trans hi hk⟩) start = .ok u ∧ u.1 = 0) →
      zc (specs.get ⟨k, hk⟩) start = .ok t → t.1 ≠ 0 →
      zoneCreateLoop zc start specs acc = (.ok (some t), specs.take (k + 1))
  | [], k, hk, _, _, _, _, _ => absurd hk (by simp)
  | s :: rest, 0, hk, acc, t, hok, ht, ht0 => by
      have h0 : zc s start = .ok t := ht
      simp [zoneCreateLoop, h0, ht0]
  | s :: rest, k + 1, hk, acc, t, hok, ht, ht0 => by
      obtain ⟨u, hu, hu0⟩ := hok 0 (Nat.succ_pos k)
      have h0 : zc s start = .ok u := hu
      have hk2 : k < rest.length := by
        simp only [List.length_cons] at hk
        omega
      have ih := zoneCreateLoop_break zc start rest k hk2 (some u) t
        (fun i hi => hok (i + 1) (Nat.succ_lt_succ hi)) ht ht0
      simp [zoneCreateLoop, h0, hu0, ih]

/-- Claim C3 theorem: both realm bootstrap and zone create process their
batch strictly sequentially in input order; when the spec at position k is
the first to fail (by exception, or for zone create also by non-zero
retval), the attempted specs are exactly positions 0..k (so k+1..N are never
attempted) and the result is exactly that failure. -/
theorem batch_fail_fast
    (boot : RGWSpec → Bool → Except RGWAMErr Unit)
    (zc : RGWSpec → Bool → Except RGWAMErr CmdResult)
    (start : Bool) (specs : List RGWSpec) (k : Nat) (hk : k < specs.length)
    (r zg z zn tok : Option String) (port : Option Int) (pl : Option String) :
    (∀ e : RGWAMErr,
      (∀ i (hi : i < k), boot (specs.get ⟨i, Nat.lt_trans hi hk⟩) start = .ok ()) →
      boot (specs.get ⟨k, hk⟩) start = .error e →
      cmdRealmBootstrap (fun _ => specs) boot r zg z port pl start (some "inbuf")
        = ((e.retcode, e.message, e.stderr), specs.take (k + 1))) ∧
    (∀ e : RGWAMErr,
      (∀ i (hi : i < k), ∃ u : CmdResult,
          zc (specs.get ⟨i, Nat.lt_trans hi hk⟩) start = .ok u ∧ u.1 = 0) →
      zc (specs.get ⟨k, hk⟩) start = .error e →
      cmdZoneCreate (fun _ => specs) zc zn tok port pl start (some "inbuf")
        = (.ok (e.retcode, e.message, e.stderr), specs.take (k + 1))) ∧
    (∀ t : CmdResult,
      (∀ i (hi : i < k), ∃ u : CmdResult,
          zc (specs.get ⟨i, Nat.lt_trans hi hk⟩) start = .ok u ∧ u.1 = 0) →
      zc (specs.get ⟨k, hk⟩) start = .ok t → t.1 ≠ 0 →
      cmdZoneCreate (fun _ => specs) zc zn tok port pl start (some "inbuf")
        = (.ok t, specs.take (k + 1))) := by
  refine ⟨fun e hok herr => ?_, fun e hok herr => ?_, fun t hok ht ht0 => ?_⟩
  · have hl := bootstrapLoop_fail_fast boot start specs k hk e hok herr
    simp [cmdRealmBootstrap, show strTruthy (some "inbuf") = true from rfl,
      runBootstrap, hl]
  · have hl := zoneCreateLoop_fail_fast zc start specs k hk none e hok herr
    simp [cmdZoneCreate, show strTruthy (some "inbuf") = true from rfl,
      runZoneCreate, hl]
  · have hl := zoneCreateLoop_break zc start specs k hk none t hok ht ht0
    simp [cmdZoneCreate, show strTruthy (some "inbuf") = true from rfl,
      runZoneCreate, hl]

/-- A concrete spec used by witnesses: only the port differs. -/
def wSpec (n : Int) : RGWSpec := { rgw_frontend_port := some n }

/-- A concrete bootstrap oracle used by witnesses: only port 1 succeeds. -/
def wBoot : RGWSpec → Bool → Except RGWAMErr Unit := fun s _ =>
  if s.rgw_frontend_port = some 1 then .ok () else .error ⟨5, "boom", "err"⟩

/-- Witness for C3: with three specs where the second fails, only the first
two are attempted and the result is the second's failure. -/
theorem batch_fail_fast_witness :
    cmdRealmBootstrap (fun _ => [wSpec 1, wSpec 2, wSpec 3]) wBoot none none none none none
        true (some "inbuf")
      = ((5, "boom", "err"), [wSpec 1, wSpec 2]) := by
  refine (batch_fail_fast wBoot (fun _ _ => .ok (0, "", "")) true
      [wSpec 1, wSpec 2, wSpec 3] 1 (by simp) none none none none none none none).1
      ⟨5, "boom", "err"⟩ (fun i hi => ?_) rfl
  have h0 : i = 0 := by omega
  subst h0
  rfl

/-! ### Spec resolution (`_parse_rgw_specs`, source lines 153 to 165)

YAML document loading is external (the spec treats declarative-document
parsing as done by the caller), so the input is a list of already-loaded
documents in which an empty YAML document appears as `None`.
`RGWSpec.from_json` plus `validate` (external collaborators) are one oracle
that either yields a validated spec or raises. -/

/-- The `for spec in specs:` loop of `_parse_rgw_specs`: convert and
validate each document in order, first raise aborts. -/
def parseSpecsLoop {α : Type} (fv : α → Except RGWAMErr RGWSpec) :
    List α → Except RGWAMErr (List RGWSpec)
  | [] => .ok []
  | d :: rest =>
    match fv d with
    | .error e => .error e
    | .ok s =>
      match parseSpecsLoop fv rest with
      | .error e => .error e
      | .ok ss => .ok (s :: ss)

/-- `_parse_rgw_specs`: drop `None` documents (the source's
`[o for o in yaml_objs if o is not None]`), then convert and validate the
rest in order. -/
def parseRgwSpecs {α : Type} (fv : α → Except RGWAMErr RGWSpec)
    (docs : List (Option α)) : Except RGWAMErr (List RGWSpec) :=
  parseSpecsLoop fv (docs.filterMap id)

theorem parseSpecsLoop_ok {α : Type} (fv : α → Except RGWAMErr RGWSpec) (f : α → RGWSpec) :
    ∀ l : List α, (∀ d ∈ l, fv d = .ok (f d)) → parseSpecsLoop fv l = .ok (l.map f)
  | [], _ => rfl
  | d :: rest, h => by
      have hd : fv d = .ok (f d) := h d (by simp)
      have ih := parseSpecsLoop_ok fv f rest (fun x hx => h x (by simp [hx]))
      simp [parseSpecsLoop, hd, ih]

/-- Claim C6 theorem: spec resolution silently drops empty/null documents
and returns the validated specs of the remaining documents in their original
input order (the filtered list mapped in order, a pure computation with no
side effects). -/
theorem spec_resolution_drops_nulls {α : Type} (fv : α → Except RGWAMErr RGWSpec)
    (f : α → RGWSpec) (docs : List (Option α))
    (h : ∀ d ∈ docs.filterMap id, fv d = .ok (f d)) :
    parseRgwSpecs fv docs = .ok ((docs.filterMap id).map f) :=
  parseSpecsLoop_ok fv f (docs.filterMap id) h

/-- Witness for C6: a null document between two real ones is dropped and
order is preserved. -/
theorem spec_resolution_drops_nulls_witness :
    parseRgwSpecs (fun n : Int => .ok (wSpec n)) [some 1, none, some 2]
      = .ok [wSpec 1, wSpec 2] :=
  spec_resolution_drops_nulls (fun n : Int => .ok (wSpec n)) wSpec
    [some 1, none, some 2] (fun _ _ => rfl)

end RgwMgr
